import Mathlib

/-!
Shallow embedding of the performance regression detection engine in
scripts/performance_regression_detector.py, together with theorems checking
the specified properties against the embedded code.

Modelling conventions:
- Python float values are modelled as rationals.  Metric dictionaries are
  modelled as insertion-ordered association lists (Python dicts preserve
  insertion order).  JSON values that are not numbers matter only through
  the isinstance checks of the source and are modelled by the JVal type.
- Python computations that can raise an exception (division by zero while
  computing a percentage, json.load on a malformed file) are modelled in
  the Except monad: Except.error means the Python code raises and the run
  aborts at that point.
- The statistical fit inside the trend analyzer (scipy.stats.linregress and
  its p-value) is a floating point routine that is not consumed by any of
  the properties below except through the record it may return; it is taken
  as a parameter of the trend detection functions.  Every theorem about the
  trend path holds for an arbitrary such function.
-/

namespace PerfRegression

/-- Values of metric dictionaries: numbers (int or float in Python), strings
(for example the timestamp field), or anything else. -/
inductive JVal where
  | num (q : ℚ)
  | str (s : String)
  | other
deriving DecidableEq, Repr

/-- A metric snapshot: an insertion-ordered mapping from metric names to
values, as produced by json.load on a snapshot file. -/
abbrev Metrics := List (String × JVal)

/-- Dictionary lookup on an association list (first binding wins, matching
Python dict semantics when keys are unique). -/
def lookupS {α : Type} (k : String) : List (String × α) → Option α
  | [] => none
  | (k2, a) :: rest => if k2 = k then some a else lookupS k rest

/-- Character-list prefix test. -/
def isPrefixCh : List Char → List Char → Bool
  | [], _ => true
  | _ :: _, [] => false
  | a :: as, b :: bs => a == b && isPrefixCh as bs

/-- Character-list substring test. -/
def isSubCh (pat : List Char) : List Char → Bool
  | [] => pat.isEmpty
  | b :: bs => isPrefixCh pat (b :: bs) || isSubCh pat bs

/-- Python substring containment, pat in s. -/
def strContains (s pat : String) : Bool := isSubCh pat.data s.data

/-- Python str.lower for the ASCII names used here. -/
def toLowerStr (s : String) : String := String.mk (s.data.map Char.toLower)

/-- Python str.upper for the ASCII names used here. -/
def toUpperStr (s : String) : String := String.mk (s.data.map Char.toUpper)

/-- Configuration constant REGRESSION_THRESHOLD = 15.0. -/
def REGRESSION_THRESHOLD : ℚ := 15

/-- Configuration constant MIN_SAMPLE_SIZE = 10. -/
def MIN_SAMPLE_SIZE : Nat := 10

/-- Keyword list used to classify a metric direction. -/
def higher_worse_keywords : List String := ["time", "latency", "memory", "cpu", "disk"]

/-- Direction classification of a metric name by substring match, as in
check_metric_regression and its copies. -/
def is_higher_worse (name : String) : Bool :=
  higher_worse_keywords.any (fun kw => strContains (toLowerStr name) kw)

/-- Python division: raises ZeroDivisionError on a zero denominator. -/
def pydiv (a b : ℚ) : Except Unit ℚ :=
  if b = 0 then .error () else .ok (a / b)

/-- A regression record as built by the detector.  Trend records carry no
baseline or current entry (the source stores slope, r squared and p-value
there instead; those fields are never consumed downstream and belong to the
parameterized statistical fit). -/
structure Regression where
  metric : String
  rtype : String
  baseline : Option ℚ
  current : Option ℚ
  changePercent : ℚ
  severity : String
  description : String
deriving DecidableEq, Repr

/-- Floor of a rational, computable form. -/
def qfloor (q : ℚ) : Int := q.num.fdiv (q.den : Int)

/-- Round to the nearest integer, ties to even, as in float formatting. -/
def roundHalfEven (q : ℚ) : Int :=
  let f := qfloor q
  let r := q - (f : ℚ)
  if r < 1/2 then f
  else if (1 : ℚ)/2 < r then f + 1
  else if f % 2 = 0 then f else f + 1

/-- Left-pad a digit string with zeros to a given width. -/
def padZeros (width : Nat) (s : String) : String :=
  String.mk (List.replicate (width - s.length) (Char.ofNat 48)) ++ s

/-- Fixed-point formatting of a rational with nd fractional digits,
modelling the Python format specifier .ndf on the exact value. -/
def pyFormatFixed (nd : Nat) (q : ℚ) : String :=
  let n := roundHalfEven (q * ((10 : ℚ) ^ nd))
  let sign := if n < 0 ∨ (n = 0 ∧ q < 0) then "-" else ""
  let a := n.natAbs
  let base := (10 : Nat) ^ nd
  if nd = 0 then sign ++ toString a
  else sign ++ toString (a / base) ++ "." ++ padZeros nd (toString (a % base))

/-- Severity mapping of calculate_severity. -/
def calculate_severity (change_percent : ℚ) : String :=
  if 50 ≤ change_percent then "critical"
  else if 30 ≤ change_percent then "high"
  else if 20 ≤ change_percent then "medium"
  else "low"

/-- Embedding of check_metric_regression: single-metric baseline
comparison.  The division by the baseline is Python division and raises on
a zero baseline. -/
def check_metric_regression (name : String) (baseline current : ℚ) :
    Except Unit (Option Regression) :=
  if is_higher_worse name then do
    let d ← pydiv (current - baseline) baseline
    let cp := d * 100
    if REGRESSION_THRESHOLD < cp then
      pure (some { metric := name, rtype := "baseline_comparison",
                   baseline := some baseline, current := some current,
                   changePercent := cp, severity := calculate_severity cp,
                   description := name ++ " degraded by " ++ pyFormatFixed 1 cp
                     ++ "% from baseline" })
    else pure none
  else do
    let d ← pydiv (baseline - current) baseline
    let cp := d * 100
    if REGRESSION_THRESHOLD < cp then
      pure (some { metric := name, rtype := "baseline_comparison",
                   baseline := some baseline, current := some current,
                   changePercent := cp, severity := calculate_severity cp,
                   description := name ++ " degraded by " ++ pyFormatFixed 1 cp
                     ++ "% from baseline" })
    else pure none

/-- The change percentage expression of the two branches of
check_metric_regression, exposed as its own function. -/
def change_percent_of (name : String) (baseline current : ℚ) : Except Unit ℚ :=
  if is_higher_worse name then
    (pydiv (current - baseline) baseline).map (fun d => d * 100)
  else
    (pydiv (baseline - current) baseline).map (fun d => d * 100)

/-- The loop of detect_regressions over baseline items: for each metric
present in both snapshots with numeric values, run the single-metric
check and collect the produced regressions. -/
def baselineLoop (currentM : Metrics) : List (String × JVal) → Except Unit (List Regression)
  | [] => .ok []
  | (name, v) :: rest =>
    match v, lookupS name currentM with
    | JVal.num bv, some (JVal.num cv) => do
        let r ← check_metric_regression name bv cv
        let rs ← baselineLoop currentM rest
        match r with
        | some reg => .ok (reg :: rs)
        | none => .ok rs
    | _, _ => baselineLoop currentM rest

/-- Baseline-comparison half of detect_regressions. -/
def detect_baseline_regressions (baselineM currentM : Metrics) : Except Unit (List Regression) :=
  baselineLoop currentM baselineM

/-- Python dict update d[k].append(a), creating d[k] = [] first when the key
is absent, as in the grouping loops of detect_trend_regressions and
generate_report. -/
def bump {α : Type} (d : List (String × List α)) (k : String) (a : α) :
    List (String × List α) :=
  match d with
  | [] => [(k, [a])]
  | (k2, l) :: rest => if k2 = k then (k2, l ++ [a]) :: rest else (k2, l) :: bump rest k a

/-- Grouping a sequence of key-value pairs into an insertion-ordered
dictionary of lists, the common shape of both grouping loops. -/
def collectAll {α : Type} (ps : List (String × α)) : List (String × List α) :=
  ps.foldl (fun d p => bump d p.1 p.2) []

/-- All values attached to one key, in sequence order. -/
def filterKey {α : Type} (k : String) (ps : List (String × α)) : List α :=
  ps.filterMap (fun p => if p.1 = k then some p.2 else none)

/-- The (metric name, numeric value) pairs scanned by the grouping loop of
detect_trend_regressions: every numeric entry of every historical snapshot
except the timestamp field. -/
def numeric_pairs (historical : List Metrics) : List (String × ℚ) :=
  (historical.map (fun snap => snap.filterMap (fun p =>
    if p.1 = "timestamp" then none
    else match p.2 with
      | JVal.num q => some (p.1, q)
      | _ => none))).flatten

/-- Embedding of detect_trend_regressions, parameterized by the statistical
analysis function analyze_trend (scipy linear fit in the source): group the
historical values by metric, and analyze each metric that reaches
MIN_SAMPLE_SIZE points. -/
def detect_trend_regressions (analyze : String → List ℚ → Option Regression)
    (historical : List Metrics) : List Regression :=
  (collectAll (numeric_pairs historical)).filterMap
    (fun p => if MIN_SAMPLE_SIZE ≤ p.2.length then analyze p.1 p.2 else none)

/-- Embedding of detect_regressions: the baseline comparisons, followed by
the trend regressions when the number of historical snapshots reaches
MIN_SAMPLE_SIZE. -/
def detect_regressions (analyze : String → List ℚ → Option Regression)
    (baselineM currentM : Metrics) (historical : List Metrics) :
    Except Unit (List Regression) := do
  let rs ← detect_baseline_regressions baselineM currentM
  let ts := if MIN_SAMPLE_SIZE ≤ historical.length
            then detect_trend_regressions analyze historical else []
  .ok (rs ++ ts)

/-- The loop of calculate_performance_score: for each metric present in
both snapshots with numeric values, the clamped ratio on the 0-100 scale.
The Python division raises when its denominator is zero. -/
def scoreLoop (currentM : Metrics) : List (String × JVal) → Except Unit (List ℚ)
  | [] => .ok []
  | (name, v) :: rest =>
    match v, lookupS name currentM with
    | JVal.num bv, some (JVal.num cv) => do
        let frac ← if is_higher_worse name then pydiv bv cv else pydiv cv bv
        let others ← scoreLoop currentM rest
        .ok ((min 100 (max 0 (frac * 100))) :: others)
    | _, _ => scoreLoop currentM rest

/-- Arithmetic mean, as statistics.mean. -/
def list_mean (l : List ℚ) : ℚ := l.sum / (l.length : ℚ)

/-- Python int() conversion: truncation toward zero. -/
def pyint (q : ℚ) : Int := if 0 ≤ q then ⌊q⌋ else -⌊-q⌋

/-- Embedding of calculate_performance_score. -/
def calculate_performance_score (baselineM currentM : Metrics) : Except Unit Int :=
  if currentM = [] ∨ baselineM = [] then .ok 50
  else do
    let scores ← scoreLoop currentM baselineM
    if scores = [] then .ok 50 else .ok (pyint (list_mean scores))

/-- The inner search of the key-metrics loop of
generate_performance_summary: the first current entry whose lowered name
contains the key metric substring and whose value is numeric. -/
def firstKeyMatch (metric : String) : List (String × JVal) → Option (String × ℚ)
  | [] => none
  | (k, v) :: rest =>
    match v with
    | JVal.num q =>
        if strContains (toLowerStr k) metric then some (k, q) else firstKeyMatch metric rest
    | _ => firstKeyMatch metric rest

/-- Embedding of generate_performance_summary. -/
def generate_performance_summary (baselineM currentM : Metrics) : Except Unit String := do
  let score ← calculate_performance_score baselineM currentM
  let head := "**Overall Performance Score**: " ++ toString score ++ "/100"
  let keyLines :=
    if currentM = [] then []
    else "\n### Key Metrics:" ::
      (["response_time", "throughput", "cpu_usage", "memory_usage"].filterMap
        (fun m => (firstKeyMatch m currentM).map
          (fun p => "- " ++ p.1 ++ ": " ++ pyFormatFixed 2 p.2)))
  .ok (String.intercalate "\n" (head :: keyLines))

/-- The lines rendered for one regression inside a severity section of
generate_report. -/
def regressionLines (r : Regression) : List String :=
  ("- **" ++ r.metric ++ "**: " ++ r.description) ::
  ((match r.baseline, r.current with
    | some b, some c =>
      [ "  - Baseline: " ++ pyFormatFixed 2 b,
        "  - Current: " ++ pyFormatFixed 2 c,
        "  - Change: " ++ pyFormatFixed 1 r.changePercent ++ "%" ]
    | _, _ => []) ++ [""])

/-- The heading line of one severity section. -/
def severityHeading (sev : String) (count : Nat) : String :=
  "## " ++ toUpperStr sev ++ " SEVERITY (" ++ toString count ++ ")"

/-- Embedding of generate_report.  The generation timestamp
datetime.now().isoformat() is passed in as the now argument.  The severity
grouping is the Python dict built by insertion order; the four severities
are then visited in the fixed order critical, high, medium, low. -/
def generate_report (now : String) (baselineM currentM : Metrics)
    (regressions : List Regression) : Except Unit String := do
  let summary ← generate_performance_summary baselineM currentM
  let header := ["# Performance Regression Report",
                 "Generated: " ++ now,
                 "Regressions Detected: " ++ toString regressions.length,
                 ""]
  let body :=
    if regressions = [] then ["✅ No performance regressions detected!"]
    else
      let groups := collectAll (regressions.map (fun r => (r.severity, r)))
      ((["critical", "high", "medium", "low"].map (fun sev =>
        match lookupS sev groups with
        | none => []
        | some l => severityHeading sev l.length :: (l.map regressionLines).flatten)).flatten)
  .ok (String.intercalate "\n" (header ++ body ++ ["## Performance Summary", summary]))

/-- Loading loop of load_historical_metrics over the files of the
historical directory (in glob order): json.load each file.  A file that
fails to parse raises; only a missing directory is caught by the source, so
a parse error propagates.  A file is modelled as some snapshot when it
parses and none when it is malformed. -/
def loadParsedFiles : List (Option Metrics) → Except Unit (List Metrics)
  | [] => .ok []
  | none :: _ => .error ()
  | some m :: rest => do
      let ms ← loadParsedFiles rest
      .ok (m :: ms)

/-- Sort key of the historical sort: the timestamp field, empty string when
absent. -/
def tsKey (m : Metrics) : String :=
  match lookupS "timestamp" m with
  | some (JVal.str s) => s
  | _ => ""

/-- Lexicographic order on code points, as Python string comparison. -/
def charsLt : List Char → List Char → Bool
  | [], [] => false
  | [], _ :: _ => true
  | _ :: _, [] => false
  | a :: as, b :: bs => a.val < b.val || (a == b && charsLt as bs)

/-- Stable insertion into an ascending list by timestamp key. -/
def insertTs (m : Metrics) : List Metrics → List Metrics
  | [] => [m]
  | x :: xs => if charsLt (tsKey m).data (tsKey x).data then m :: x :: xs else x :: insertTs m xs

/-- Stable sort by timestamp key, as sorted(historical, key=timestamp). -/
def sortByTimestamp (ms : List Metrics) : List Metrics :=
  ms.foldl (fun acc m => insertTs m acc) []

/-- Embedding of load_historical_metrics: parse every historical file, then
sort ascending by timestamp key. -/
def load_historical_metrics (files : List (Option Metrics)) : Except Unit (List Metrics) := do
  let hs ← loadParsedFiles files
  .ok (sortByTimestamp hs)

/-- Exit code selection at the end of main: 1 when a critical regression
exists, else 2 when any regression exists, else 0. -/
def main_exit_code (regressions : List Regression) : Nat :=
  if (regressions.filter (fun r => r.severity == "critical")) ≠ [] then 1
  else if regressions ≠ [] then 2
  else 0

/-- One field of a Slack attachment. -/
structure SlackField where
  title : String
  value : String
  short : Bool
deriving DecidableEq, Repr

/-- One Slack attachment: a color, optional fields, optional text. -/
structure SlackAttachment where
  color : String
  fields : List SlackField
  text : Option String
deriving DecidableEq, Repr

/-- The Slack webhook payload. -/
structure SlackMessage where
  text : String
  attachments : List SlackAttachment
deriving DecidableEq, Repr

/-- Embedding of send_slack_notification: a summary attachment counting
critical and high regressions of the passed list, followed by one detail
attachment for each of the first five critical regressions.  The current
time string is passed in as now. -/
def send_slack_notification (subject now : String) (regressions : List Regression) :
    SlackMessage :=
  let criticalCount := (regressions.filter (fun r => r.severity == "critical")).length
  let highCount := (regressions.filter (fun r => r.severity == "high")).length
  let summaryAtt : SlackAttachment :=
    { color := "danger",
      fields := [ { title := "Summary",
                    value := "Critical: " ++ toString criticalCount ++ ", High: "
                      ++ toString highCount,
                    short := true },
                  { title := "Time", value := now, short := true } ],
      text := none }
  let criticalRegs := regressions.filter (fun r => r.severity == "critical")
  { text := subject,
    attachments := summaryAtt ::
      (criticalRegs.take 5).map (fun r =>
        { color := "danger", fields := [], text := some ("• " ++ r.description) }) }

/-- The filter of send_alert: only high and critical regressions are
alerted. -/
def alert_filter (regressions : List Regression) : List Regression :=
  regressions.filter (fun r => r.severity == "high" || r.severity == "critical")

/-- Embedding of the Slack branch of send_alert (with a configured
webhook): no message when there is no regression or no high or critical
regression, otherwise the payload built from the filtered list. -/
def send_alert_slack (now : String) (regressions : List Regression) : Option SlackMessage :=
  if regressions = [] then none
  else
    let alertRegs := alert_filter regressions
    if alertRegs = [] then none
    else
      let subject := "🚨 Performance Regression Alert - " ++ toString alertRegs.length
        ++ " Issues Detected"
      some (send_slack_notification subject now alertRegs)

/-! Spec-side definitions, written from the wording of the specification,
used to compare the embedded code against the claimed behavior. -/

/-- Claimed change percentage formula: signed percentage degradation with
the sign convention of the metric direction (spec 4.2). -/
def spec_change_percent (name : String) (baseline current : ℚ) : ℚ :=
  if is_higher_worse name then (current - baseline) / baseline * 100
  else (baseline - current) / baseline * 100

/-- The regression record produced for a flagged baseline comparison at a
given change percentage. -/
def baseline_regression_record (name : String) (baseline current cp : ℚ) : Regression :=
  { metric := name, rtype := "baseline_comparison",
    baseline := some baseline, current := some current,
    changePercent := cp, severity := calculate_severity cp,
    description := name ++ " degraded by " ++ pyFormatFixed 1 cp ++ "% from baseline" }

/-- Rank of a severity name in the ordered enumeration
low < medium < high < critical. -/
def severity_rank (s : String) : Nat :=
  if s = "critical" then 3 else if s = "high" then 2 else if s = "medium" then 1 else 0

/-- Report body with every severity bucket obtained by filtering the input
list directly (the claimed characterization of the grouping: buckets in the
fixed severity order, entries within a bucket in input order). -/
def report_by_filtered_buckets (now : String) (baselineM currentM : Metrics)
    (regressions : List Regression) : Except Unit String := do
  let summary ← generate_performance_summary baselineM currentM
  let header := ["# Performance Regression Report",
                 "Generated: " ++ now,
                 "Regressions Detected: " ++ toString regressions.length,
                 ""]
  let body :=
    if regressions = [] then ["✅ No performance regressions detected!"]
    else
      ((["critical", "high", "medium", "low"].map (fun sev =>
        let l := regressions.filter (fun r => r.severity == sev)
        if l = [] then []
        else severityHeading sev l.length :: (l.map regressionLines).flatten)).flatten)
  .ok (String.intercalate "\n" (header ++ body ++ ["## Performance Summary", summary]))

/-- The comparable metric pairs of the score computation: metrics present
in both snapshots with numeric values, with their two values. -/
def comparablePairs (baselineM currentM : Metrics) : List (String × ℚ × ℚ) :=
  baselineM.filterMap (fun p =>
    match p.2, lookupS p.1 currentM with
    | JVal.num bv, some (JVal.num cv) => some (p.1, bv, cv)
    | _, _ => none)

/-- Claimed score: clamped per-metric ratios averaged, 50 when there is no
comparable pair (spec 4.4), using total division. -/
def spec_score (baselineM currentM : Metrics) : Int :=
  if currentM = [] ∨ baselineM = [] then 50
  else if comparablePairs baselineM currentM = [] then 50
  else pyint (list_mean ((comparablePairs baselineM currentM).map (fun p =>
    min 100 (max 0 ((if is_higher_worse p.1 then p.2.1 / p.2.2 else p.2.2 / p.2.1) * 100)))))

deriving instance DecidableEq for Except

/-! Lemmas about the insertion-ordered dictionary used by the grouping
loops. -/

theorem lookupS_bump {α : Type} (d : List (String × List α)) (kb : String) (a : α)
    (k : String) :
    lookupS k (bump d kb a) =
      if kb = k then some ((lookupS k d).getD [] ++ [a]) else lookupS k d := by
  induction d with
  | nil => by_cases h : kb = k <;> simp [bump, lookupS, h]
  | cons p rest ih =>
    obtain ⟨k3, l⟩ := p
    by_cases h1 : k3 = kb
    · subst h1
      by_cases h2 : k3 = k
      · subst h2
        simp [bump, lookupS]
      · simp [bump, lookupS, h2]
    · by_cases h2 : k3 = k
      · subst h2
        have hkb : ¬ kb = k3 := fun h => h1 h.symm
        simp [bump, lookupS, h1, hkb]
      · simp [bump, lookupS, h1, h2, ih]

theorem filterKey_cons {α : Type} (k k1 : String) (a : α) (ps : List (String × α)) :
    filterKey k ((k1, a) :: ps) =
      if k1 = k then a :: filterKey k ps else filterKey k ps := by
  by_cases h : k1 = k <;> simp [filterKey, List.filterMap_cons, h]

theorem lookupS_foldl_bump {α : Type} [DecidableEq α] (ps : List (String × α))
    (d : List (String × List α)) (k : String) :
    lookupS k (ps.foldl (fun d p => bump d p.1 p.2) d) =
      match lookupS k d with
      | some l => some (l ++ filterKey k ps)
      | none => if filterKey k ps = [] then none else some (filterKey k ps) := by
  induction ps generalizing d with
  | nil =>
    simp only [List.foldl_nil, filterKey, List.filterMap_nil]
    cases lookupS k d <;> simp
  | cons p rest ih =>
    obtain ⟨k1, a⟩ := p
    simp only [List.foldl_cons]
    rw [ih, lookupS_bump, filterKey_cons]
    by_cases h1 : k1 = k
    · subst h1
      cases hd : lookupS k1 d <;> simp [hd]
    · cases hd : lookupS k d <;> simp [hd, h1]

theorem lookupS_collectAll {α : Type} [DecidableEq α] (ps : List (String × α)) (k : String) :
    lookupS k (collectAll ps) =
      if filterKey k ps = [] then none else some (filterKey k ps) := by
  have h := lookupS_foldl_bump ps [] k
  simpa [collectAll, lookupS] using h

theorem lookupS_eq_none_iff {α : Type} (d : List (String × α)) (k : String) :
    lookupS k d = none ↔ k ∉ d.map Prod.fst := by
  induction d with
  | nil => simp [lookupS]
  | cons p rest ih =>
    obtain ⟨k3, a⟩ := p
    by_cases h : k3 = k
    · simp [lookupS, h]
    · have hkk : ¬ k = k3 := fun hc => h hc.symm
      simp only [lookupS, if_neg h, ih, List.map_cons, List.mem_cons]
      simp [hkk]

theorem keys_bump {α : Type} (d : List (String × List α)) (kb : String) (a : α) :
    (bump d kb a).map Prod.fst =
      if (lookupS kb d).isSome then d.map Prod.fst else d.map Prod.fst ++ [kb] := by
  induction d with
  | nil => simp [bump, lookupS]
  | cons p rest ih =>
    obtain ⟨k3, l⟩ := p
    by_cases h : k3 = kb
    · subst h
      simp [bump, lookupS]
    · have hkb : ¬ k3 = kb := h
      simp only [bump, if_neg hkb, List.map_cons, lookupS]
      rw [ih]
      by_cases hs : (lookupS kb rest).isSome <;> simp [hs]

theorem nodup_keys_bump {α : Type} (d : List (String × List α)) (kb : String) (a : α)
    (h : (d.map Prod.fst).Nodup) : ((bump d kb a).map Prod.fst).Nodup := by
  rw [keys_bump]
  by_cases hs : (lookupS kb d).isSome
  · simpa [hs] using h
  · have hn : lookupS kb d = none := by
      cases hl : lookupS kb d
      · rfl
      · simp [hl] at hs
    have hnotin : kb ∉ d.map Prod.fst := (lookupS_eq_none_iff d kb).mp hn
    simp [hs, List.nodup_append, h, hnotin]

theorem nodup_keys_collectAll {α : Type} (ps : List (String × α)) :
    ((collectAll ps).map Prod.fst).Nodup := by
  suffices h : ∀ (d : List (String × List α)), (d.map Prod.fst).Nodup →
      (((ps.foldl (fun d p => bump d p.1 p.2) d)).map Prod.fst).Nodup by
    exact h [] (by simp)
  induction ps with
  | nil => intro d hd; simpa using hd
  | cons p rest ih =>
    intro d hd
    simpa using ih (bump d p.1 p.2) (nodup_keys_bump d p.1 p.2 hd)

theorem mem_lookupS {α : Type} {d : List (String × α)} (h : (d.map Prod.fst).Nodup)
    {k : String} {a : α} (hm : (k, a) ∈ d) : lookupS k d = some a := by
  induction d with
  | nil => simp at hm
  | cons p rest ih =>
    obtain ⟨k3, a3⟩ := p
    rw [List.map_cons] at h
    rcases List.mem_cons.mp hm with heq | hmem
    · obtain ⟨h1, h2⟩ := Prod.mk.injEq .. ▸ heq
      simp [lookupS, h1.symm, h2]
    · have hk : k ∈ rest.map Prod.fst := List.mem_map.mpr ⟨(k, a), hmem, rfl⟩
      have hne : ¬ k3 = k := by
        intro hc
        subst hc
        exact (List.nodup_cons.mp h).1 hk
      simp only [lookupS, if_neg hne]
      exact ih (List.nodup_cons.mp h).2 hmem

theorem mem_collectAll {α : Type} [DecidableEq α] {ps : List (String × α)} {k : String}
    {l : List α} (hm : (k, l) ∈ collectAll ps) : l = filterKey k ps ∧ l ≠ [] := by
  have hl := mem_lookupS (nodup_keys_collectAll ps) hm
  rw [lookupS_collectAll] at hl
  by_cases he : filterKey k ps = []
  · simp [he] at hl
  · simp only [if_neg he] at hl
    obtain rfl : filterKey k ps = l := by injection hl
    exact ⟨rfl, he⟩

/-! Lemmas about the single-metric baseline comparison. -/

theorem exceptBind_ok {ε α β : Type} (a : α) (f : α → Except ε β) :
    (Except.ok a >>= f) = f a := rfl

theorem exceptBind_error {ε α β : Type} (e : ε) (f : α → Except ε β) :
    ((Except.error e : Except ε α) >>= f) = Except.error e := rfl

theorem check_metric_eq (name : String) (b c : ℚ) (hb : b ≠ 0) :
    check_metric_regression name b c =
      .ok (if REGRESSION_THRESHOLD < spec_change_percent name b c
           then some (baseline_regression_record name b c (spec_change_percent name b c))
           else none) := by
  unfold check_metric_regression spec_change_percent baseline_regression_record pydiv
  by_cases hw : is_higher_worse name <;>
    simp only [hw, if_true, if_false, Bool.false_eq_true, if_neg hb, exceptBind_ok] <;>
    split_ifs <;> rfl

theorem check_metric_zero (name : String) (c : ℚ) :
    check_metric_regression name 0 c = .error () := by
  unfold check_metric_regression pydiv
  by_cases hw : is_higher_worse name <;>
    simp [hw, exceptBind_error]

theorem change_percent_of_eq (name : String) (b c : ℚ) (hb : b ≠ 0) :
    change_percent_of name b c = .ok (spec_change_percent name b c) := by
  unfold change_percent_of spec_change_percent pydiv
  by_cases hw : is_higher_worse name <;> simp [hw, hb, Except.map]

/-! Lemmas about the severity grouping of generate_report. -/

theorem filterKey_map_severity (regs : List Regression) (sev : String) :
    filterKey sev (regs.map (fun r => (r.severity, r))) =
      regs.filter (fun r => r.severity == sev) := by
  induction regs with
  | nil => simp [filterKey]
  | cons r rest ih =>
    by_cases h : r.severity = sev <;>
      simp [List.map_cons, filterKey_cons, h, List.filter_cons, ih]

theorem bucket_eq (regs : List Regression) (sev : String) :
    (match lookupS sev (collectAll (regs.map (fun r => (r.severity, r)))) with
     | none => []
     | some l => severityHeading sev l.length :: (l.map regressionLines).flatten) =
    (let l := regs.filter (fun r => r.severity == sev)
     if l = [] then []
     else severityHeading sev l.length :: (l.map regressionLines).flatten) := by
  rw [lookupS_collectAll, filterKey_map_severity]
  by_cases h : regs.filter (fun r => r.severity == sev) = [] <;> simp [h]

/-! Lemmas about the performance score. -/

theorem scoreLoop_eq (currentM : Metrics) (l : List (String × JVal))
    (h : ∀ p ∈ comparablePairs l currentM,
      if is_higher_worse p.1 then p.2.2 ≠ 0 else p.2.1 ≠ 0) :
    scoreLoop currentM l = .ok ((comparablePairs l currentM).map (fun p =>
      min 100 (max 0 ((if is_higher_worse p.1 then p.2.1 / p.2.2 else p.2.2 / p.2.1) * 100)))) := by
  induction l with
  | nil => simp [scoreLoop, comparablePairs]
  | cons p rest ih =>
    obtain ⟨name, v⟩ := p
    rcases v with q | s | _
    · cases hl : lookupS name currentM with
      | none =>
        have hcp : comparablePairs ((name, JVal.num q) :: rest) currentM
            = comparablePairs rest currentM := by
          simp [comparablePairs, List.filterMap_cons, hl]
        rw [hcp] at h ⊢
        simpa [scoreLoop, hl] using ih h
      | some jv =>
        rcases jv with cv | s2 | _
        · have hcp : comparablePairs ((name, JVal.num q) :: rest) currentM
              = (name, q, cv) :: comparablePairs rest currentM := by
            simp [comparablePairs, List.filterMap_cons, hl]
          rw [hcp] at h ⊢
          have hd := h (name, q, cv) (List.mem_cons_self _ _)
          have hrest := fun p hp => h p (List.mem_cons_of_mem _ hp)
          by_cases hw : is_higher_worse name
          · rw [if_pos hw] at hd
            simp only [scoreLoop, hl, if_pos hw, pydiv, if_neg hd, exceptBind_ok, ih hrest]
            simp [hw]
          · rw [if_neg hw] at hd
            simp only [scoreLoop, hl, if_neg hw, pydiv, if_neg hd, exceptBind_ok, ih hrest]
            simp [hw]
        · have hcp : comparablePairs ((name, JVal.num q) :: rest) currentM
              = comparablePairs rest currentM := by
            simp [comparablePairs, List.filterMap_cons, hl]
          rw [hcp] at h ⊢
          simpa [scoreLoop, hl] using ih h
        · have hcp : comparablePairs ((name, JVal.num q) :: rest) currentM
              = comparablePairs rest currentM := by
            simp [comparablePairs, List.filterMap_cons, hl]
          rw [hcp] at h ⊢
          simpa [scoreLoop, hl] using ih h
    · have hcp : comparablePairs ((name, JVal.str s) :: rest) currentM
          = comparablePairs rest currentM := by
        simp [comparablePairs, List.filterMap_cons]
      rw [hcp] at h ⊢
      simpa [scoreLoop] using ih h
    · have hcp : comparablePairs ((name, JVal.other) :: rest) currentM
          = comparablePairs rest currentM := by
        simp [comparablePairs, List.filterMap_cons]
      rw [hcp] at h ⊢
      simpa [scoreLoop] using ih h

theorem list_mean_bounds (l : List ℚ) (hne : l ≠ [])
    (h0 : ∀ x ∈ l, 0 ≤ x) (h1 : ∀ x ∈ l, x ≤ 100) :
    0 ≤ list_mean l ∧ list_mean l ≤ 100 := by
  have hlen0 : l.length ≠ 0 := by simpa using hne
  have hlen : (0 : ℚ) < l.length := by exact_mod_cast Nat.pos_of_ne_zero hlen0
  constructor
  · exact div_nonneg (List.sum_nonneg h0) hlen.le
  · rw [list_mean, div_le_iff₀ hlen]
    calc l.sum ≤ l.length • (100 : ℚ) := List.sum_le_card_nsmul l 100 h1
      _ = 100 * l.length := by rw [nsmul_eq_mul]; ring

theorem pyint_bounds {q : ℚ} (h0 : 0 ≤ q) (h1 : q ≤ 100) :
    0 ≤ pyint q ∧ pyint q ≤ 100 := by
  rw [pyint, if_pos h0]
  constructor
  · exact Int.le_floor.mpr (by exact_mod_cast h0)
  · have hc : (⌊q⌋ : ℚ) ≤ 100 := le_trans (Int.floor_le q) h1
    exact_mod_cast hc

theorem clamp_bounds (x : ℚ) : 0 ≤ min 100 (max 0 x) ∧ min 100 (max 0 x) ≤ 100 := by
  constructor
  · exact le_min (by norm_num) (le_max_left 0 x)
  · exact min_le_left 100 _

/-- Further lemma for the rtype of every record produced by the baseline
comparison loop. -/
theorem check_metric_rtype {name : String} {b c : ℚ} {r : Regression}
    (h : check_metric_regression name b c = .ok (some r)) :
    r.rtype = "baseline_comparison" := by
  by_cases hb : b = 0
  · subst hb
    rw [check_metric_zero] at h
    cases h
  · rw [check_metric_eq name b c hb] at h
    have h2 := Except.ok.inj h
    by_cases hth : REGRESSION_THRESHOLD < spec_change_percent name b c
    · rw [if_pos hth] at h2
      obtain rfl := Option.some.inj h2
      rfl
    · rw [if_neg hth] at h2
      cases h2

theorem baselineLoop_rtype (currentM : Metrics) (l : List (String × JVal))
    (rs : List Regression) (h : baselineLoop currentM l = .ok rs) :
    ∀ r ∈ rs, r.rtype = "baseline_comparison" := by
  induction l generalizing rs with
  | nil =>
    obtain rfl : ([] : List Regression) = rs := by
      simpa [baselineLoop] using h
    simp
  | cons p rest ih =>
    obtain ⟨name, v⟩ := p
    rcases v with q | s | _
    · cases hl : lookupS name currentM with
      | none =>
        simp only [baselineLoop, hl] at h
        exact ih rs h
      | some jv =>
        rcases jv with cv | s2 | _
        · simp only [baselineLoop, hl] at h
          cases hc : check_metric_regression name q cv with
          | error e => rw [hc, exceptBind_error] at h; cases h
          | ok ro =>
            rw [hc, exceptBind_ok] at h
            cases hloop : baselineLoop currentM rest with
            | error e => rw [hloop, exceptBind_error] at h; cases h
            | ok rs2 =>
              rw [hloop, exceptBind_ok] at h
              cases ro with
              | none =>
                obtain rfl := Except.ok.inj h
                exact ih rs2 hloop
              | some reg =>
                obtain rfl := Except.ok.inj h
                intro r hr
                rcases List.mem_cons.mp hr with rfl | hr2
                · exact check_metric_rtype hc
                · exact ih rs2 hloop r hr2
        · simp only [baselineLoop, hl] at h
          exact ih rs h
        · simp only [baselineLoop, hl] at h
          exact ih rs h
    · simp only [baselineLoop] at h
      exact ih rs h
    · simp only [baselineLoop] at h
      exact ih rs h

/-- Membership in the trend detection output comes from a grouped series
that reached the minimum sample size. -/
theorem mem_detect_trend {analyze : String → List ℚ → Option Regression}
    {hist : List Metrics} {r : Regression}
    (hr : r ∈ detect_trend_regressions analyze hist) :
    ∃ p ∈ collectAll (numeric_pairs hist),
      MIN_SAMPLE_SIZE ≤ p.2.length ∧ analyze p.1 p.2 = some r := by
  unfold detect_trend_regressions at hr
  obtain ⟨p, hp, hpa⟩ := List.mem_filterMap.mp hr
  by_cases hlen : MIN_SAMPLE_SIZE ≤ p.2.length
  · exact ⟨p, hp, hlen, by simpa [hlen] using hpa⟩
  · rw [if_neg hlen] at hpa
    cases hpa

/-- Reduction of the severity rank of the computed severity to numeric
ifs. -/
theorem severity_rank_calc (x : ℚ) :
    severity_rank (calculate_severity x) =
      if 50 ≤ x then 3 else if 30 ≤ x then 2 else if 20 ≤ x then 1 else 0 := by
  unfold calculate_severity
  split_ifs <;> simp [severity_rank]

/-! Concrete sample data used by counterexamples and witnesses. -/

/-- A sample low severity regression on a higher-is-worse metric. -/
def regA : Regression :=
  { metric := "alpha_time", rtype := "baseline_comparison", baseline := some 100,
    current := some 116, changePercent := 16, severity := "low",
    description := "alpha_time degraded by 16.0% from baseline" }

/-- A second sample low severity regression with a different metric name. -/
def regB : Regression :=
  { metric := "beta_time", rtype := "baseline_comparison", baseline := some 100,
    current := some 117, changePercent := 17, severity := "low",
    description := "beta_time degraded by 17.0% from baseline" }

/-- A sample critical severity regression. -/
def regCrit : Regression :=
  { metric := "gamma_memory", rtype := "baseline_comparison", baseline := some 100,
    current := some 160, changePercent := 60, severity := "critical",
    description := "gamma_memory degraded by 60.0% from baseline" }

/-! The claims. -/

/-- C1: the specification demands that a zero numeric baseline value be
treated as no regression computable for that metric, with the run
continuing.  The code does not guard the division: at baseline
response_time_ms = 0 and current 10 the single-metric check raises
ZeroDivisionError and the whole baseline comparison pass aborts, so the
claim describes intended behavior that the code does not implement. -/
theorem c1_zero_baseline_crashes :
    check_metric_regression "response_time_ms" 0 10 = .error ()
    ∧ detect_baseline_regressions [("response_time_ms", JVal.num 0)]
        [("response_time_ms", JVal.num 10)] = .error () := by
  constructor <;> with_unfolding_all decide

/-- C2: the specification says a malformed individual historical file is
skipped and the load continues.  The code only catches a missing directory:
a malformed file in the middle of the directory aborts the whole historical
load (first conjunct), whereas the same collection without the malformed
file loads and is sorted by timestamp (second conjunct). -/
theorem c2_malformed_historical_file_aborts_load :
    load_historical_metrics [some [("timestamp", JVal.str "b")], none,
      some [("timestamp", JVal.str "a")]] = .error ()
    ∧ load_historical_metrics [some [("timestamp", JVal.str "b")],
      some [("timestamp", JVal.str "a")]] =
      .ok [[("timestamp", JVal.str "a")], [("timestamp", JVal.str "b")]] := by
  constructor <;> with_unfolding_all decide

/-- C3 counterexample: report generation is not invariant under reordering
of the regression list.  Two low severity regressions with different metric
names, swapped, produce different report text, because the source renders a
severity bucket in input order and does not sort metric names. -/
theorem c3_report_not_invariant_under_reordering :
    generate_report "2024-01-01T00:00:00" [] [] [regA, regB] ≠
    generate_report "2024-01-01T00:00:00" [] [] [regB, regA] := by
  with_unfolding_all decide

/-- C3 amended: for a fixed generation timestamp and fixed snapshots the
report text is a deterministic function of the ordered regression list:
the severity buckets appear in the fixed order critical, high, medium,
low, and within one bucket the regressions appear in input list order (not
sorted by metric name).  Reordering records within a bucket therefore
changes the text, and a fresh timestamp changes the Generated line. -/
theorem c3_report_deterministic_in_input_order (now : String)
    (baselineM currentM : Metrics) (regs : List Regression) :
    generate_report now baselineM currentM regs =
      report_by_filtered_buckets now baselineM currentM regs := by
  unfold generate_report report_by_filtered_buckets
  cases h : generate_performance_summary baselineM currentM with
  | error e => rw [exceptBind_error, exceptBind_error]
  | ok s =>
    rw [exceptBind_ok, exceptBind_ok]
    by_cases hr : regs = []
    · simp [hr]
    · simp only [if_neg hr, bucket_eq]

/-- C4: for every metric present in both snapshots with numeric values and
nonzero baseline, the change percentage follows the claimed signed formula
of the metric direction, and a baseline_comparison regression is raised
exactly when it exceeds REGRESSION_THRESHOLD = 15; the end-to-end scenario
baseline response_time_ms = 100, current 120 yields change 20, severity
medium and exactly one regression. -/
theorem c4_baseline_comparison_formula :
    (∀ name : String, ∀ b c : ℚ, b ≠ 0 →
      check_metric_regression name b c =
        .ok (if REGRESSION_THRESHOLD < spec_change_percent name b c
             then some (baseline_regression_record name b c (spec_change_percent name b c))
             else none))
    ∧ detect_baseline_regressions [("response_time_ms", JVal.num 100)]
        [("response_time_ms", JVal.num 120)] =
      .ok [{ metric := "response_time_ms", rtype := "baseline_comparison",
             baseline := some 100, current := some 120, changePercent := 20,
             severity := "medium",
             description := "response_time_ms degraded by 20.0% from baseline" }] :=
  ⟨check_metric_eq, by with_unfolding_all decide⟩

/-- C4 witness: the general branch of the theorem applied at the concrete
scenario input. -/
theorem c4_witness :
    ((100 : ℚ) ≠ 0)
    ∧ check_metric_regression "response_time_ms" 100 120 =
      .ok (if REGRESSION_THRESHOLD < spec_change_percent "response_time_ms" 100 120
           then some (baseline_regression_record "response_time_ms" 100 120
             (spec_change_percent "response_time_ms" 100 120))
           else none) :=
  ⟨by norm_num, c4_baseline_comparison_formula.1 "response_time_ms" 100 120 (by norm_num)⟩

/-- C5: the severity function is monotone, every change percentage above
the 15 gate maps to exactly one of the four severities, the buckets are
critical for at least 50, high on [30, 50), medium on [20, 30), low on
(15, 20), and the boundary values 20, 30 and 50 map to the higher
bucket. -/
theorem c5_severity_monotone_exhaustive :
    (∀ a b : ℚ, a ≤ b →
      severity_rank (calculate_severity a) ≤ severity_rank (calculate_severity b))
    ∧ (∀ cp : ℚ, REGRESSION_THRESHOLD < cp →
        (calculate_severity cp = "low" ∨ calculate_severity cp = "medium" ∨
         calculate_severity cp = "high" ∨ calculate_severity cp = "critical"))
    ∧ (∀ cp : ℚ, 50 ≤ cp → calculate_severity cp = "critical")
    ∧ (∀ cp : ℚ, 30 ≤ cp → cp < 50 → calculate_severity cp = "high")
    ∧ (∀ cp : ℚ, 20 ≤ cp → cp < 30 → calculate_severity cp = "medium")
    ∧ (∀ cp : ℚ, REGRESSION_THRESHOLD < cp → cp < 20 → calculate_severity cp = "low")
    ∧ calculate_severity 20 = "medium" ∧ calculate_severity 30 = "high"
    ∧ calculate_severity 50 = "critical" := by
  refine ⟨?_, ?_, ?_, ?_, ?_, ?_, ?_, ?_, ?_⟩
  · intro a b hab
    rw [severity_rank_calc, severity_rank_calc]
    split_ifs <;> first | omega | linarith
  · intro cp _
    unfold calculate_severity
    split_ifs <;> simp
  · intro cp h
    unfold calculate_severity
    rw [if_pos h]
  · intro cp h1 h2
    unfold calculate_severity
    split_ifs <;> first | rfl | linarith
  · intro cp h1 h2
    unfold calculate_severity
    split_ifs <;> first | rfl | linarith
  · intro cp h1 h2
    unfold calculate_severity
    split_ifs <;> first | rfl | linarith
  · with_unfolding_all decide
  · with_unfolding_all decide
  · with_unfolding_all decide

/-- C5 witness: the monotone branch at 16 and 25, and the medium bucket at
25. -/
theorem c5_witness :
    ((16 : ℚ) ≤ 25)
    ∧ severity_rank (calculate_severity 16) ≤ severity_rank (calculate_severity 25)
    ∧ ((20 : ℚ) ≤ 25 ∧ (25 : ℚ) < 30)
    ∧ calculate_severity 25 = "medium" :=
  ⟨by norm_num, c5_severity_monotone_exhaustive.1 16 25 (by norm_num),
   ⟨by norm_num, by norm_num⟩,
   c5_severity_monotone_exhaustive.2.2.2.2.1 25 (by norm_num) (by norm_num)⟩

/-- C6: a metric whose historical numeric series has at most nine points
never yields a trend_analysis regression, whatever the statistical analysis
function does: the per-metric minimum sample size guard skips it, and every
baseline-path record carries the type baseline_comparison. -/
theorem c6_trend_requires_min_samples
    (analyze : String → List ℚ → Option Regression)
    (hm : ∀ n vs r, analyze n vs = some r → r.metric = n)
    (baselineM currentM : Metrics) (hist : List Metrics) (m : String)
    (hlen : (filterKey m (numeric_pairs hist)).length ≤ 9)
    (rs : List Regression)
    (hrun : detect_regressions analyze baselineM currentM hist = .ok rs) :
    ∀ r ∈ rs, r.metric = m → r.rtype ≠ "trend_analysis" := by
  unfold detect_regressions at hrun
  cases hb : detect_baseline_regressions baselineM currentM with
  | error e =>
    rw [hb, exceptBind_error] at hrun
    cases hrun
  | ok bs =>
    rw [hb, exceptBind_ok] at hrun
    obtain rfl := Except.ok.inj hrun
    intro r hr hmet
    rcases List.mem_append.mp hr with hrb | hrt
    · have hbase := baselineLoop_rtype currentM baselineM bs hb r hrb
      rw [hbase]
      decide
    · by_cases hg : MIN_SAMPLE_SIZE ≤ hist.length
      · rw [if_pos hg] at hrt
        obtain ⟨p, hp, hplen, hpa⟩ := mem_detect_trend hrt
        have hpm : r.metric = p.1 := hm p.1 p.2 r hpa
        have hser := (mem_collectAll hp).1
        have hkey : p.1 = m := hpm.symm.trans hmet
        rw [hkey] at hser
        rw [hser] at hplen
        unfold MIN_SAMPLE_SIZE at hplen
        omega
      · rw [if_neg hg] at hrt
        cases hrt

/-- C6 witness inputs: ten historical snapshots in which cpu_load has ten
numeric points while response_time_ms has only nine. -/
def histNine : List Metrics :=
  [("cpu_load", JVal.num 1)] ::
    List.replicate 9 [("response_time_ms", JVal.num 1), ("cpu_load", JVal.num 1)]

/-- C6 witness analysis function: flags every series it is given. -/
def analyzeAll (n : String) (vs : List ℚ) : Option Regression :=
  some { metric := n, rtype := "trend_analysis", baseline := none, current := none,
         changePercent := vs.length, severity := "low", description := "" }

/-- C6 witness regression: the trend record the witness run produces for
cpu_load. -/
def cpuReg : Regression :=
  { metric := "cpu_load", rtype := "trend_analysis", baseline := none, current := none,
    changePercent := 10, severity := "low", description := "" }

/-- C6 witness: the theorem applied at the concrete witness inputs; the
run flags only cpu_load, and the nine-point metric cannot be the source of
a trend record. -/
theorem c6_witness :
    ((filterKey "response_time_ms" (numeric_pairs histNine)).length ≤ 9)
    ∧ (cpuReg.metric = "response_time_ms" → cpuReg.rtype ≠ "trend_analysis") :=
  ⟨by with_unfolding_all decide,
   c6_trend_requires_min_samples analyzeAll
     (by
       intro n vs r h
       obtain rfl := Option.some.inj h
       rfl)
     [] [] histNine "response_time_ms" (by with_unfolding_all decide) [cpuReg]
     (by with_unfolding_all decide) cpuReg (by with_unfolding_all decide)⟩

/-- C7 counterexample: the score does not always return an integer; a
higher-is-worse metric whose current value is zero makes the per-metric
ratio raise ZeroDivisionError and the whole score computation aborts. -/
theorem c7_score_zero_denominator_crash :
    calculate_performance_score [("x_time", JVal.num 1)] [("x_time", JVal.num 0)]
      = .error () := by
  with_unfolding_all decide

/-- C7 amended: whenever every per-metric ratio denominator (the current
value for higher-is-worse metrics, the baseline value otherwise) is
nonzero, the score returns the claimed clamped-ratio average, an integer in
[0, 100], and it returns exactly 50 when no comparable numeric metric pair
exists. -/
theorem c7_score_in_range (baselineM currentM : Metrics)
    (h : ∀ p ∈ comparablePairs baselineM currentM,
      if is_higher_worse p.1 then p.2.2 ≠ 0 else p.2.1 ≠ 0) :
    calculate_performance_score baselineM currentM = .ok (spec_score baselineM currentM)
    ∧ 0 ≤ spec_score baselineM currentM
    ∧ spec_score baselineM currentM ≤ 100
    ∧ (comparablePairs baselineM currentM = [] →
        calculate_performance_score baselineM currentM = .ok 50) := by
  unfold calculate_performance_score spec_score
  by_cases he : currentM = [] ∨ baselineM = []
  · refine ⟨?_, ?_, ?_, fun _ => ?_⟩
    · rw [if_pos he, if_pos he]
    · rw [if_pos he]
      decide
    · rw [if_pos he]
      decide
    · rw [if_pos he]
  · simp only [if_neg he]
    rw [scoreLoop_eq currentM baselineM h, exceptBind_ok]
    by_cases hcp : comparablePairs baselineM currentM = []
    · have hs : (comparablePairs baselineM currentM).map (fun p =>
          min 100 (max 0 ((if is_higher_worse p.1 then p.2.1 / p.2.2 else p.2.2 / p.2.1) * 100)))
          = [] := by
        rw [hcp]
        rfl
      refine ⟨?_, ?_, ?_, fun _ => ?_⟩
      · rw [if_pos hs, if_pos hcp]
      · rw [if_pos hcp]
        decide
      · rw [if_pos hcp]
        decide
      · rw [if_pos hs]
    · have hs : (comparablePairs baselineM currentM).map (fun p =>
          min 100 (max 0 ((if is_higher_worse p.1 then p.2.1 / p.2.2 else p.2.2 / p.2.1) * 100)))
          ≠ [] := by
        simpa [List.map_eq_nil_iff] using hcp
      have hbound0 : ∀ x ∈ (comparablePairs baselineM currentM).map (fun p =>
          min 100 (max 0 ((if is_higher_worse p.1 then p.2.1 / p.2.2 else p.2.2 / p.2.1) * 100))),
          0 ≤ x := by
        intro x hx
        obtain ⟨p, _, rfl⟩ := List.mem_map.mp hx
        exact (clamp_bounds _).1
      have hbound1 : ∀ x ∈ (comparablePairs baselineM currentM).map (fun p =>
          min 100 (max 0 ((if is_higher_worse p.1 then p.2.1 / p.2.2 else p.2.2 / p.2.1) * 100))),
          x ≤ 100 := by
        intro x hx
        obtain ⟨p, _, rfl⟩ := List.mem_map.mp hx
        exact (clamp_bounds _).2
      obtain ⟨hm0, hm1⟩ := list_mean_bounds _ hs hbound0 hbound1
      obtain ⟨hp0, hp1⟩ := pyint_bounds hm0 hm1
      refine ⟨?_, ?_, ?_, fun hcon => absurd hcon hcp⟩
      · rw [if_neg hs, if_neg hcp]
      · rw [if_neg hcp]
        exact hp0
      · rw [if_neg hcp]
        exact hp1

/-- C7 witness: the amended theorem applied to one comparable metric pair
with nonzero denominator. -/
theorem c7_witness :
    calculate_performance_score [("x_time", JVal.num 100)] [("x_time", JVal.num 80)]
      = .ok (spec_score [("x_time", JVal.num 100)] [("x_time", JVal.num 80)])
    ∧ 0 ≤ spec_score [("x_time", JVal.num 100)] [("x_time", JVal.num 80)]
    ∧ spec_score [("x_time", JVal.num 100)] [("x_time", JVal.num 80)] ≤ 100
    ∧ (comparablePairs [("x_time", JVal.num 100)] [("x_time", JVal.num 80)] = [] →
        calculate_performance_score [("x_time", JVal.num 100)] [("x_time", JVal.num 80)]
          = .ok 50) :=
  c7_score_in_range _ _ (by with_unfolding_all decide)

/-- C8 counterexample: with a negative baseline on a higher-is-worse
metric, increasing the current value strictly decreases the change
percentage, so the claimed unconditional strict monotonicity fails. -/
theorem c8_not_monotone_for_negative_baseline :
    is_higher_worse "x_time" = true
    ∧ ((1 : ℚ) < 2)
    ∧ change_percent_of "x_time" (-1) 1 = .ok (-200)
    ∧ change_percent_of "x_time" (-1) 2 = .ok (-300)
    ∧ ¬ ((-200 : ℚ) < (-300 : ℚ)) := by
  refine ⟨?_, by norm_num, ?_, ?_, by norm_num⟩ <;> with_unfolding_all decide

/-- C8 amended: for a higher-is-worse metric with positive baseline the
change percentage is strictly increasing in the current value; for every
metric with nonzero baseline, equal current and baseline give change zero
and no regression; and a flagged regression always carries a change
percentage above the threshold, so a negative change is never flagged. -/
theorem c8_monotone_positive_baseline_and_identity :
    (∀ name : String, ∀ b c1 c2 p1 p2 : ℚ, is_higher_worse name = true → 0 < b → c1 < c2 →
      change_percent_of name b c1 = .ok p1 → change_percent_of name b c2 = .ok p2 →
      p1 < p2)
    ∧ (∀ name : String, ∀ b : ℚ, b ≠ 0 →
        change_percent_of name b b = .ok 0 ∧ check_metric_regression name b b = .ok none)
    ∧ (∀ name : String, ∀ b c : ℚ, ∀ r : Regression,
        check_metric_regression name b c = .ok (some r) →
        change_percent_of name b c = .ok r.changePercent
        ∧ REGRESSION_THRESHOLD < r.changePercent) := by
  refine ⟨?_, ?_, ?_⟩
  · intro name b c1 c2 p1 p2 hw hb hc h1 h2
    rw [change_percent_of_eq name b c1 (ne_of_gt hb)] at h1
    rw [change_percent_of_eq name b c2 (ne_of_gt hb)] at h2
    obtain rfl := Except.ok.inj h1
    obtain rfl := Except.ok.inj h2
    unfold spec_change_percent
    rw [if_pos hw, if_pos hw]
    have h3 : (c1 - b) / b < (c2 - b) / b := by
      apply div_lt_div_of_pos_right ?_ hb
      linarith
    have h100 : (0 : ℚ) < 100 := by norm_num
    exact mul_lt_mul_of_pos_right h3 h100
  · intro name b hb
    have hzero : spec_change_percent name b b = 0 := by
      unfold spec_change_percent
      split_ifs <;> simp
    constructor
    · rw [change_percent_of_eq name b b hb, hzero]
    · rw [check_metric_eq name b b hb, hzero]
      norm_num [REGRESSION_THRESHOLD]
  · intro name b c r h
    by_cases hb : b = 0
    · subst hb
      rw [check_metric_zero] at h
      cases h
    · rw [check_metric_eq name b c hb] at h
      have h2 := Except.ok.inj h
      by_cases hth : REGRESSION_THRESHOLD < spec_change_percent name b c
      · rw [if_pos hth] at h2
        obtain rfl := Option.some.inj h2
        refine ⟨?_, ?_⟩
        · simpa [baseline_regression_record] using change_percent_of_eq name b c hb
        · simpa [baseline_regression_record] using hth
      · rw [if_neg hth] at h2
        cases h2

/-- C8 witness: the monotone branch at baseline 100 and currents 110 and
120 on a higher-is-worse metric. -/
theorem c8_witness :
    is_higher_worse "x_time" = true ∧ ((0 : ℚ) < 100) ∧ ((110 : ℚ) < 120)
    ∧ change_percent_of "x_time" 100 110 = .ok 10
    ∧ change_percent_of "x_time" 100 120 = .ok 20
    ∧ ((10 : ℚ) < 20) := by
  refine ⟨?_, by norm_num, by norm_num, ?_, ?_, ?_⟩
  · with_unfolding_all decide
  · with_unfolding_all decide
  · with_unfolding_all decide
  · exact c8_monotone_positive_baseline_and_identity.1 "x_time" 100 110 120 10 20
      (by with_unfolding_all decide) (by norm_num) (by norm_num)
      (by with_unfolding_all decide) (by with_unfolding_all decide)

/-- C9: the invocation surfaces three distinct exit codes: 0 with no
regressions, 2 with regressions but none critical, 1 with at least one
critical regression. -/
theorem c9_exit_codes :
    main_exit_code [] = 0
    ∧ (∀ rs : List Regression, rs ≠ [] → (∀ r ∈ rs, r.severity ≠ "critical") →
        main_exit_code rs = 2)
    ∧ (∀ rs : List Regression, (∃ r ∈ rs, r.severity = "critical") →
        main_exit_code rs = 1)
    ∧ ((0 : Nat) ≠ 2 ∧ (2 : Nat) ≠ 1 ∧ (0 : Nat) ≠ 1) := by
  refine ⟨rfl, ?_, ?_, by norm_num⟩
  · intro rs hne hnc
    have hf : rs.filter (fun r => r.severity == "critical") = [] := by
      rw [List.filter_eq_nil_iff]
      intro r hr
      simpa using hnc r hr
    simp [main_exit_code, hf, hne]
  · rintro rs ⟨r, hr, hsev⟩
    have hf : r ∈ rs.filter (fun r => r.severity == "critical") :=
      List.mem_filter.mpr ⟨hr, by simp [hsev]⟩
    have hne : rs.filter (fun r => r.severity == "critical") ≠ [] :=
      List.ne_nil_of_mem hf
    simp [main_exit_code, hne]

/-- C9 witness: the non-critical and critical branches at one-element
lists. -/
theorem c9_witness :
    ([regA] ≠ ([] : List Regression))
    ∧ main_exit_code [regA] = 2
    ∧ main_exit_code [regCrit] = 1 :=
  ⟨by with_unfolding_all decide,
   c9_exit_codes.2.1 [regA] (by with_unfolding_all decide) (by with_unfolding_all decide),
   c9_exit_codes.2.2.1 [regCrit] (by with_unfolding_all decide)⟩

/-- Filtering the alerted list again for critical entries gives exactly the
critical entries of the original list. -/
theorem filter_alert_critical (regs : List Regression) :
    (alert_filter regs).filter (fun r => r.severity == "critical") =
      regs.filter (fun r => r.severity == "critical") := by
  unfold alert_filter
  rw [List.filter_filter]
  congr 1
  funext r
  cases hc : r.severity == "critical" <;> simp [hc]

/-- Filtering the alerted list again for high entries gives exactly the
high entries of the original list. -/
theorem filter_alert_high (regs : List Regression) :
    (alert_filter regs).filter (fun r => r.severity == "high") =
      regs.filter (fun r => r.severity == "high") := by
  unfold alert_filter
  rw [List.filter_filter]
  congr 1
  funext r
  cases hh : r.severity == "high" <;> simp [hh]

/-- C10: when the alert fires, the Slack payload is the summary attachment
followed by at most five detail attachments, drawn in list order from the
critical regressions only, while the summary counts cover all critical and
all high regressions of the run. -/
theorem c10_slack_details_limited (now : String) (regs : List Regression)
    (h : alert_filter regs ≠ []) :
    ∃ msg, send_alert_slack now regs = some msg ∧
      msg.attachments.length ≤ 6 ∧
      msg.attachments.tail =
        ((regs.filter (fun r => r.severity == "critical")).take 5).map
          (fun r => { color := "danger", fields := [],
                      text := some ("• " ++ r.description) }) ∧
      msg.attachments.head? = some
        { color := "danger",
          fields := [ { title := "Summary",
                        value := "Critical: "
                          ++ toString (regs.filter (fun r => r.severity == "critical")).length
                          ++ ", High: "
                          ++ toString (regs.filter (fun r => r.severity == "high")).length,
                        short := true },
                      { title := "Time", value := now, short := true } ],
          text := none } := by
  have hregs : regs ≠ [] := by
    intro hc
    subst hc
    exact h rfl
  unfold send_alert_slack
  simp only [if_neg hregs, if_neg h]
  refine ⟨_, rfl, ?_, ?_, ?_⟩
  · simp only [send_slack_notification, List.length_cons, List.length_map, List.length_take]
    have := Nat.min_le_left 5
      ((alert_filter regs).filter (fun r => r.severity == "critical")).length
    omega
  · simp [send_slack_notification, filter_alert_critical]
  · simp [send_slack_notification, filter_alert_critical, filter_alert_high]

/-- C10 witness: seven critical regressions; the alert fires and the
payload exists. -/
theorem c10_witness :
    alert_filter (List.replicate 7 regCrit) ≠ []
    ∧ (send_alert_slack "2024-01-01" (List.replicate 7 regCrit)).isSome = true := by
  refine ⟨by with_unfolding_all decide, ?_⟩
  obtain ⟨msg, hm, -, -, -⟩ := c10_slack_details_limited "2024-01-01"
    (List.replicate 7 regCrit) (by with_unfolding_all decide)
  rw [hm]
  rfl

end PerfRegression
